import Mathlib

/-!
# SOLAR Controller GUI — protocol / state-machine verification

Shallow embedding of the serial-protocol layer of the two GUI variants in
this repository:

* `SOLAR_GUI.py`    (class `SOLARGUI`, "V1") — modelled in namespace `V1`
* `SOLAR_GUI_V3.py` (class `SolarController`, "V3") — modelled in namespace `V3`

The embedding keeps the source's structure: each Python method that the
claims touch becomes one Lean function over an explicit state record.
Widget geometry is out of scope; `tk` variables become record fields,
`messagebox` dialogs become an appended `warnings` list, and bytes written
to the serial port become an appended `serial_written` list (one entry per
`write` call).  Wall-clock timestamps are passed in as explicit `ts`
arguments (V3 stores them in the log buffer; V1's timestamp prefix is
omitted from the model because V1 never re-reads its log widget).
-/

namespace Py

/-- Models `s.startswith(p)` on the underlying character lists. -/
def startsWith (s p : String) : Bool :=
  List.isPrefixOf p.data s.data

/-- Models `sub` occurs as a contiguous sublist of the second argument. -/
def subOf (sub : List Char) : List Char → Bool
  | [] => List.isPrefixOf sub []
  | x :: xs => List.isPrefixOf sub (x :: xs) || subOf sub xs

/-- Python's `sub in s` substring test. -/
def containsSub (s sub : String) : Bool :=
  subOf sub.data s.data

/-- Characters of `l` strictly before the first occurrence of `c`
(all of `l` if `c` does not occur). -/
def takeUntil (c : Char) : List Char → List Char
  | [] => []
  | x :: xs => if x = c then [] else x :: takeUntil c xs

/-- Characters of `l` strictly after the first occurrence of `c`
(empty if `c` does not occur). -/
def dropThrough (c : Char) : List Char → List Char
  | [] => []
  | x :: xs => if x = c then xs else dropThrough c xs

/-- Models `s.split(sep)[1]` for a one-character separator, under the guard that
`sep` occurs in `s` (all call sites below are behind a prefix test that
guarantees this): the segment between the first occurrence of `sep` and
the following occurrence (or the end of the string). -/
def splitField1 (c : Char) (s : String) : String :=
  String.mk (takeUntil c (dropThrough c s.data))

/-- Models `s.split(sep, 1)[1]` for a one-character separator, under the guard
that `sep` occurs in `s`: everything after the first occurrence. -/
def splitOnce1 (c : Char) (s : String) : String :=
  String.mk (dropThrough c s.data)

/-- Models `s.split(" ")[0]`: everything before the first space
(the whole string when there is no space). -/
def firstSpaceField (s : String) : String :=
  String.mk (takeUntil ' ' s.data)

/-- Whitespace stripped by Python's `int(str)` (ASCII subset). -/
def isSpaceChar (c : Char) : Bool :=
  c = ' ' || c = '\t' || c = '\n' || c = '\r' || c = '\x0b' || c = '\x0c'

/-- Numeric value of a digit character. -/
def digitVal (c : Char) : Nat := c.toNat - 48

/-- Continuation of `digits`: after at least one digit has been read,
accept further digits, with single underscores allowed between digits
(Python 3.6+ digit grouping); `afterUnder` records that the previous
character was an underscore, which must be followed by a digit. -/
def digitsGo (acc : Nat) (afterUnder : Bool) : List Char → Option Nat
  | [] => if afterUnder then none else some acc
  | c :: cs =>
    if c.isDigit then digitsGo (10 * acc + digitVal c) false cs
    else if c = '_' && !afterUnder then digitsGo acc true cs
    else none

/-- The digit part of Python's `int(str)`: a nonempty digit string,
optionally with single underscores between digits. -/
def digits : List Char → Option Nat
  | [] => none
  | c :: cs => if c.isDigit then digitsGo (digitVal c) false cs else none

/-- Sign handling of Python's `int(str)`, applied after whitespace
stripping: optional sign, then a digit string. -/
def toIntCore : List Char → Option Int
  | [] => none
  | c :: rest =>
    if c = '-' then (digits rest).map (fun n => -(n : Int))
    else if c = '+' then (digits rest).map (fun n => (n : Int))
    else (digits (c :: rest)).map (fun n => (n : Int))

/-- Python's `int(str)`: strip surrounding whitespace, optional sign,
then a digit string; `none` models the `ValueError` raise. -/
def toInt (s : String) : Option Int :=
  toIntCore (((s.data.dropWhile isSpaceChar).reverse.dropWhile isSpaceChar).reverse)

/-- Python's `f"{i:03d}"` for a nonnegative value: zero-pad to width 3. -/
def pad3 (i : Nat) : String :=
  let s := toString i
  if s.length ≥ 3 then s else String.mk (List.replicate (3 - s.length) '0') ++ s

/-- Decimal value of a digit list (the number `<n>` denoted by a numeral). -/
def decVal (ds : List Char) : Nat :=
  ds.foldl (fun acc c => 10 * acc + digitVal c) 0

end Py

namespace V1

/-- State of `SOLARGUI` (`src/SOLAR_GUI.py`), restricted to the
protocol-relevant members.  Label widgets that `process_serial_data`
and disconnect write to are modelled as string fields; the serial
transport is modelled as the list of strings passed to
`serial_port.write` (each already carrying its `"\n"` terminator). -/
structure St where
  is_connected : Bool
  /-- Models `self.serial_port` is not `None` (truthiness of the handle). -/
  has_port : Bool
  /-- Strings written to the transport, in order. -/
  serial_written : List String
  /-- Models `messagebox` dialogs raised, in order. -/
  warnings : List String
  /-- Models `self.filter_debug_var` -/
  filter_debug_var : Bool
  /-- Models `self.total_devices` -/
  total_devices : Int
  /-- Models `self.system_state` -/
  system_state : String
  /-- Models `self.ina226_status` -/
  ina226_status : String
  /-- text of `self.device_count_label` -/
  device_count_label : String
  /-- text of `self.state_label` -/
  state_label : String
  /-- text of `self.ina226_label` -/
  ina226_label : String
  /-- Models `self.servo_target_var` -/
  servo_target_var : String
  /-- Models `self.servo_device_var` -/
  servo_device_var : String
  /-- values list of `self.servo_device_combo` -/
  servo_device_values : List String
  /-- Models `self.current_target_var` -/
  current_target_var : String
  /-- Models `self.current_device_var` -/
  current_device_var : String
  /-- values list of `self.current_device_combo` -/
  current_device_values : List String
  /-- Models `self.servo_angle_var` -/
  servo_angle_var : Int
  /-- Models `self.current_value_var` -/
  current_value_var : Int
  /-- lines inserted into `self.log_text` (timestamp prefixes omitted;
  V1 never reads its log widget back). -/
  log_lines : List String
  deriving DecidableEq, Repr

/-- Models `SOLARGUI.log_message`: append to the log widget. -/
def log_message (message : String) (s : St) : St :=
  { s with log_lines := s.log_lines ++ [message] }

/-- Models `SOLARGUI.send_command`: write `command + "\n"` and log `"→ command"`
when connected, else show an error dialog.  (The `try/except` around the
write only catches transport faults, which the pure model does not
raise.) -/
def send_command (command : String) (s : St) : St :=
  if s.is_connected && s.has_port then
    log_message ("→ " ++ command)
      { s with serial_written := s.serial_written ++ [command ++ "\n"] }
  else
    { s with warnings := s.warnings ++ ["Not connected to device"] }

/-- Models `SOLARGUI.update_device_lists`. -/
def update_device_lists (s : St) : St :=
  if s.total_devices > 0 then
    let device_list :=
      "000" :: (List.range s.total_devices.toNat).map (fun i => Py.pad3 (i + 1))
    let s := { s with servo_device_values := device_list }
    let s :=
      if device_list.contains s.servo_device_var then s
      else { s with servo_device_var := "000" }
    let s := { s with current_device_values := device_list }
    if device_list.contains s.current_device_var then s
    else { s with current_device_var := "000" }
  else s

/-- Models `SOLARGUI.process_serial_data`: prefix-dispatch one inbound line.
`Except.error` models an exception escaping the handler (the bare
`int(...)` calls on `TOTAL:` / `INA226:` payloads can raise
`ValueError`); the state reached up to the raise point is discarded
because the raise happens before any assignment in those branches. -/
def process_serial_data (data : String) (s : St) : Except String St :=
  if s.filter_debug_var && Py.startsWith data "DEBUG:" then .ok s
  else if Py.startsWith data "TOTAL:" then
    match Py.toInt (Py.splitField1 ':' data) with
    | none => .error "ValueError"
    | some n =>
      .ok (update_device_lists
        { s with total_devices := n, device_count_label := toString n })
  else if Py.startsWith data "STATE:" then
    .ok { s with system_state := Py.splitField1 ':' data,
                 state_label := Py.splitField1 ':' data }
  else if Py.startsWith data "INA226:" then
    .ok { s with ina226_status := Py.splitField1 ':' data,
                 ina226_label := Py.splitField1 ':' data }
  else if Py.startsWith data "EOT" then .ok (log_message "✓ EOT" s)
  else if Py.startsWith data "ERR:" then
    .ok (log_message ("❌ Error: " ++ data) s)
  else if Py.startsWith data "EMERGENCY:" then
    .ok (log_message ("🚨 " ++ data) s)
  else if Py.startsWith data "===" then .ok (log_message data s)
  else if Py.startsWith data "Target Current:" || Py.startsWith data "Measured Current:"
       || Py.startsWith data "Bus Voltage:" || Py.startsWith data "Shunt Voltage:"
       || Py.startsWith data "Power:" || Py.startsWith data "DAC Value:"
       || Py.startsWith data "DAC Voltage:" || Py.startsWith data "Control State:" then
    .ok (log_message data s)
  else .ok (log_message data s)

/-- Each inbound line is dispatched as its own `root.after` callback; an
exception escaping one callback is reported by Tk and does not stop the
event loop, so the consumer simply proceeds to the next line. -/
def consume (lines : List String) (s : St) : St :=
  lines.foldl (fun st l =>
    match process_serial_data l st with
    | .ok st' => st'
    | .error _ => st) s

/-- Models `SOLARGUI.set_servo`: build `"<device>,servo,<angle>"` from the
current widget values — with no range validation — and send it. -/
def set_servo (s : St) : St :=
  let angle := s.servo_angle_var
  let device := if s.servo_target_var = "all" then "000" else s.servo_device_var
  send_command (device ++ ",servo," ++ toString angle) s

/-- Models `SOLARGUI.get_current_status`: send the bare `current` query. -/
def get_current_status (s : St) : St :=
  send_command "current" s

/-- The disconnect branch of `SOLARGUI.toggle_connection` (taken when
`is_connected` is true): close the port, flip the connection flag, reset
the three status *labels*, and log.  The underlying state attributes
(`total_devices`, `system_state`, `ina226_status`) are not touched. -/
def disconnect (s : St) : St :=
  log_message "🔌 Disconnected"
    { s with has_port := false, is_connected := false,
             device_count_label := "0", state_label := "Unknown",
             ina226_label := "Unknown" }

/-- Events touching V1's log visibility: an inbound line, or the user
toggling the "Filter DEBUG messages" checkbox (which in V1 only flips
the flag — the checkbox has no command callback). -/
inductive Ev where
  | line (data : String)
  | setFilter (b : Bool)
  deriving DecidableEq, Repr

def step (e : Ev) (s : St) : St :=
  match e with
  | .line d =>
    match process_serial_data d s with
    | .ok s' => s'
    | .error _ => s
  | .setFilter b => { s with filter_debug_var := b }

def run (es : List Ev) (s : St) : St :=
  es.foldl (fun s e => step e s) s

/-- A convenient fully-default state: connected, DEBUG filter on. -/
def init : St :=
  { is_connected := true, has_port := true, serial_written := []
    warnings := [], filter_debug_var := true, total_devices := 0
    system_state := "Unknown", ina226_status := "Unknown"
    device_count_label := "0", state_label := "Unknown", ina226_label := "Unknown"
    servo_target_var := "all", servo_device_var := "000", servo_device_values := ["000"]
    current_target_var := "all", current_device_var := "000"
    current_device_values := ["000"], servo_angle_var := 90
    current_value_var := 0, log_lines := [] }

end V1

namespace V3

/-- One entry of `SolarController.log_buffer`: the timestamped text
`full_message` together with its optional color tag. -/
structure Entry where
  text : String
  tag : Option String
  deriving DecidableEq, Repr

/-- State of `SolarController` (`src/SOLAR_GUI_V3.py`), restricted to the
protocol-relevant members.  `log_text` is the visible ScrolledText widget
(one element per inserted line); `log_buffer` retains everything. -/
structure St where
  is_connected : Bool
  /-- Models `self.serial_port` is not `None` (truthiness of the handle). -/
  has_port : Bool
  /-- Models `self.running` -/
  running : Bool
  /-- Strings written to the transport, in order. -/
  serial_written : List String
  /-- Models `messagebox` dialogs raised, in order. -/
  warnings : List String
  /-- Models `self.debug_filter_var` (true = hide DEBUG) -/
  debug_filter_var : Bool
  /-- Models `self.log_buffer` -/
  log_buffer : List Entry
  /-- visible lines of `self.log_text` -/
  log_text : List Entry
  /-- Models `self.total_devices` -/
  total_devices : Int
  /-- Models `self.system_state` -/
  system_state : String
  /-- Models `self.connection_status` -/
  connection_status : String
  /-- Models `self.group_total_var` -/
  group_total_var : Int
  /-- Models `self.group_id_var` -/
  group_id_var : String
  /-- values list of `self.group_id_combo` -/
  group_id_values : List String
  /-- Models `self.current_var` -/
  current_var : Int
  /-- Models `self.exposure_var` -/
  exposure_var : Int
  /-- Models `self.frame_count_var` -/
  frame_count_var : Int
  /-- Models `self.interframe_delay_var` -/
  interframe_delay_var : Int
  /-- Models `self.servo_target_mode` -/
  servo_target_mode : String
  /-- Models `self.servo_device_var` -/
  servo_device_var : String
  /-- values list of `self.servo_device_combo` -/
  servo_device_values : List String
  /-- Models `self.led_device_var` -/
  led_device_var : String
  /-- values list of `self.led_device_combo` -/
  led_device_values : List String
  /-- Models `self.servo_angle_var` -/
  servo_angle_var : Int
  deriving DecidableEq, Repr

/-- The marker test of `should_filter_message`:
`message.startswith("DEBUG:") or "DEBUG:" in message`. -/
def dbgPred (message : String) : Bool :=
  Py.startsWith message "DEBUG:" || Py.containsSub message "DEBUG:"

/-- Models `SolarController.should_filter_message`: with the filter on, hide a
message that starts with — or anywhere contains — `"DEBUG:"`. -/
def should_filter_message (s : St) (message : String) : Bool :=
  s.debug_filter_var && dbgPred message

/-- Models `SolarController.append_to_log`. -/
def append_to_log (message : String) (tag : Option String) (s : St) : St :=
  { s with log_text := s.log_text ++ [⟨message, tag⟩] }

/-- Models `SolarController.log_message`: always store
`full_message = f"{timestamp} {message}"` in the buffer; display it only
when the filter predicate does not hide `message`.  `ts` stands for
`datetime.now().strftime("[%H:%M:%S]")` (note: it contains no space). -/
def log_message (ts message : String) (tag : Option String) (s : St) : St :=
  let full := ts ++ " " ++ message
  let s' := { s with log_buffer := s.log_buffer ++ [⟨full, tag⟩] }
  if should_filter_message s' message then s' else append_to_log full tag s'

/-- Models `message.split(" ", 1)`: the part after the first space if there is
one, else the whole message — used by `refresh_log_display` to recover
the original (pre-timestamp) text of a buffer entry. -/
def stripTs (m : String) : String :=
  if m.data.contains ' ' then String.mk (Py.dropThrough ' ' m.data) else m

/-- The visible subset of a buffer under filter flag `b`: the loop body
of `refresh_log_display` keeps exactly the entries whose original
(pre-timestamp) text the filter does not hide. -/
def visFilter (b : Bool) (buf : List Entry) : List Entry :=
  buf.filter (fun e => !(b && dbgPred (stripTs e.text)))

/-- Models `SolarController.refresh_log_display`: rebuild the visible widget by
replaying the retained buffer through the filter predicate. -/
def refresh_log_display (s : St) : St :=
  { s with log_text := visFilter s.debug_filter_var s.log_buffer }

/-- Clicking the "Filter DEBUG messages" checkbutton: Tk flips the bound
variable, then runs the widget's command `refresh_log_display`. -/
def set_debug_filter (b : Bool) (s : St) : St :=
  refresh_log_display { s with debug_filter_var := b }

/-- Models `SolarController.send_command`: warn and return `False` when not
connected; else write `command + "\n"` and log `">> command"` tagged
`info`.  (The `try/except` around the write only catches transport
faults, which the pure model does not raise.) -/
def send_command (command ts : String) (s : St) : Bool × St :=
  if !s.is_connected || !s.has_port then
    (false, { s with warnings := s.warnings ++ ["Please connect to a device first"] })
  else
    (true, log_message ts (">> " ++ command) (some "info")
      { s with serial_written := s.serial_written ++ [command ++ "\n"] })

/-- Models `SolarController.update_servo_device_list`. -/
def update_servo_device_list (s : St) : St :=
  let devices := "000 - All" ::
    (List.range s.total_devices.toNat).map
      (fun i => Py.pad3 (i + 1) ++ " - Device " ++ toString (i + 1))
  let s := { s with servo_device_values := devices }
  if s.servo_target_mode = "all" then { s with servo_device_var := "000 - All" } else s

/-- Models `SolarController.update_led_device_list`. -/
def update_led_device_list (s : St) : St :=
  let devices :=
    (List.range s.total_devices.toNat).map
      (fun i => Py.pad3 (i + 1) ++ " - Device " ++ toString (i + 1))
  let s := { s with led_device_values := devices }
  if s.total_devices ≥ 1 then { s with led_device_var := "001 - Device 1" }
  else { s with led_device_var := "" }

/-- Models `SolarController.update_group_id_list`: clamp the group total below
at 1 for building the selectable list `["1", ..., str(total)]`, then
reset the selected group id to `"1"` when it does not parse as an int or
exceeds the (clamped) total.  (The `except tk.TclError: return` guard on
reading the spinbox cannot fire in the model, where `group_total_var` is
already an integer.) -/
def update_group_id_list (s : St) : St :=
  let group_total := if s.group_total_var < 1 then 1 else s.group_total_var
  let group_ids := (List.range group_total.toNat).map (fun i => toString (i + 1))
  let s := { s with group_id_values := group_ids }
  match Py.toInt s.group_id_var with
  | some current_group_id =>
    if current_group_id > group_total then { s with group_id_var := "1" } else s
  | none => { s with group_id_var := "1" }

/-- Models `SolarController.handle_serial_message`: log the raw line, then
prefix-dispatch.  All `log_message` calls during one handler invocation
share the `ts` argument (the real code re-reads the clock, which cannot
change observable state other than the timestamp text). -/
def handle_serial_message (ts message : String) (s : St) : St :=
  let s := log_message ts ("<< " ++ message) none s
  if Py.startsWith message "VER:" then
    log_message ts ("Firmware Version: " ++ Py.splitOnce1 ':' message) (some "success") s
  else if Py.startsWith message "TOTAL:" then
    match Py.toInt (Py.splitOnce1 ':' message) with
    | some total =>
      update_led_device_list (update_servo_device_list { s with total_devices := total })
    | none => s
  else if Py.startsWith message "STATE:" then
    { s with system_state := Py.splitOnce1 ':' message }
  else if Py.startsWith message "GROUP_TOTAL:" then
    match Py.toInt (Py.splitOnce1 ':' message) with
    | some group_total => update_group_id_list { s with group_total_var := group_total }
    | none => s
  else if Py.startsWith message "FRAME_COUNT:" then
    match Py.toInt (Py.splitOnce1 ':' message) with
    | some frame_count => { s with frame_count_var := frame_count }
    | none => s
  else if Py.startsWith message "INTERFRAME_DELAY:" then
    match Py.toInt (Py.splitOnce1 ':' message) with
    | some delay => { s with interframe_delay_var := delay }
    | none => s
  else if Py.startsWith message "EOT" then
    log_message ts "Command completed successfully" (some "success") s
  else if Py.startsWith message "PROGRAM_ACK:" then
    log_message ts "Program execution completed" (some "success") s
  else if Py.startsWith message "FRAME_SET:" then
    log_message ts "Frame settings updated" (some "success") s
  else if Py.startsWith message "ERR:" || Py.startsWith message "ERROR:" then
    log_message ts message (some "error") s
  else s

/-- Models `SolarController.send_servo_command`: validate the 60–120 range,
then send `"<device>,servo,<angle>"`. -/
def send_servo_command (ts : String) (s : St) : St :=
  let angle := s.servo_angle_var
  if angle < 60 || angle > 120 then
    { s with warnings := s.warnings ++ ["Servo angle must be between 60 and 120 degrees"] }
  else
    let device_id :=
      if s.servo_target_mode = "all" then "000"
      else Py.firstSpaceField s.servo_device_var
    (send_command (device_id ++ ",servo," ++ toString angle) ts s).2

/-- Models `SolarController.send_program_command`: read the widget values
(`int(self.group_id_var.get())` can raise `ValueError`, modelled as
`Except.error`), validate current / exposure / group id, then send
`"<device>,program,{gid,gtotal,ma,exposure}"`. -/
def send_program_command (ts : String) (s : St) : Except String St :=
  let device_id := Py.firstSpaceField s.led_device_var
  match Py.toInt s.group_id_var with
  | none => .error "ValueError"
  | some group_id =>
    if s.current_var < 0 || s.current_var > 1500 then
      .ok { s with warnings := s.warnings ++ ["Current must be between 0 and 1500 mA"] }
    else if s.exposure_var < 10 then
      .ok { s with warnings := s.warnings ++ ["Exposure must be at least 10 ms"] }
    else if group_id < 1 || group_id > s.group_total_var then
      .ok { s with warnings := s.warnings ++
        ["Group ID must be between 1 and " ++ toString s.group_total_var] }
    else
      .ok (send_command
        (device_id ++ ",program,\x7b" ++ toString group_id ++ ","
          ++ toString s.group_total_var ++ "," ++ toString s.current_var ++ ","
          ++ toString s.exposure_var ++ "\x7d") ts s).2

/-- Models `SolarController.disconnect`: stop the reader, close the port, flip
the connection flags and label, and log.  No device-state field
(`total_devices`, `system_state`, `group_total_var`, `frame_count_var`,
`interframe_delay_var`) is written. -/
def disconnect (ts : String) (s : St) : St :=
  log_message ts "Disconnected" (some "info")
    { s with running := false, has_port := false, is_connected := false,
             connection_status := "Disconnected" }

/-- Events touching V3's log visibility: a `log_message` call, or the
user toggling the filter checkbutton. -/
inductive Ev where
  | log (ts msg : String) (tag : Option String)
  | setFilter (b : Bool)
  deriving DecidableEq, Repr

def step (e : Ev) (s : St) : St :=
  match e with
  | .log ts m tag => log_message ts m tag s
  | .setFilter b => set_debug_filter b s

def run (es : List Ev) (s : St) : St :=
  es.foldl (fun s e => step e s) s

/-- A convenient fully-default state: connected, DEBUG filter on. -/
def init : St :=
  { is_connected := true, has_port := true, running := true
    serial_written := [], warnings := [], debug_filter_var := true
    log_buffer := [], log_text := [], total_devices := 0
    system_state := "Unknown", connection_status := "Connected"
    group_total_var := 1, group_id_var := "1", group_id_values := ["1"]
    current_var := 0, exposure_var := 10, frame_count_var := 10
    interframe_delay_var := 10, servo_target_mode := "all"
    servo_device_var := "000 - All", servo_device_values := ["000 - All"]
    led_device_var := "001 - Device 1", led_device_values := []
    servo_angle_var := 90 }


/-- The visible widget always equals the filtered retained buffer. -/
def Inv (s : St) : Prop :=
  s.log_text = visFilter s.debug_filter_var s.log_buffer

/-- Event hypothesis: timestamps contain no space (as produced by
`strftime("[%H:%M:%S]")`). -/
def tsOk : Ev → Prop
  | .log ts _ _ => ' ' ∉ ts.data
  | .setFilter _ => True

/-- Log events built from a list of (timestamp, message, tag) triples. -/
def evsOf (L : List (String × String × Option String)) : List Ev :=
  L.map (fun x => .log x.1 x.2.1 x.2.2)

/-- The buffer entries such a list of log events appends. -/
def entriesOf (L : List (String × String × Option String)) : List Entry :=
  L.map (fun x => ⟨x.1 ++ " " ++ x.2.1, x.2.2⟩)

end V3

namespace Py

theorem data_append (a p : String) : (a ++ p).data = a.data ++ p.data := rfl

/-- A string starts with itself followed by anything. -/
theorem startsWith_of_append (a p : String) : startsWith (a ++ p) a = true := by
  unfold startsWith
  rw [data_append, List.isPrefixOf_iff_prefix]
  exact List.prefix_append _ _

theorem digit_not_space {c : Char} (h : c.isDigit = true) : isSpaceChar c = false := by
  unfold isSpaceChar
  have h1 : c ≠ ' ' := by rintro rfl; exact absurd h (by decide)
  have h2 : c ≠ '\t' := by rintro rfl; exact absurd h (by decide)
  have h3 : c ≠ '\n' := by rintro rfl; exact absurd h (by decide)
  have h4 : c ≠ '\r' := by rintro rfl; exact absurd h (by decide)
  have h5 : c ≠ '\x0b' := by rintro rfl; exact absurd h (by decide)
  have h6 : c ≠ '\x0c' := by rintro rfl; exact absurd h (by decide)
  simp [h1, h2, h3, h4, h5, h6]

theorem digit_ne_dash {c : Char} (h : c.isDigit = true) : c ≠ '-' := by
  rintro rfl; exact absurd h (by decide)

theorem digit_ne_plus {c : Char} (h : c.isDigit = true) : c ≠ '+' := by
  rintro rfl; exact absurd h (by decide)

theorem dropWhile_eq_self {p : Char → Bool} {l : List Char}
    (h : ∀ x ∈ l, p x = false) : l.dropWhile p = l := by
  cases l with
  | nil => rfl
  | cons c cs => simp [List.dropWhile, h c (by simp)]

theorem digitsGo_all (cs : List Char) (h : ∀ x ∈ cs, x.isDigit = true) (acc : Nat) :
    digitsGo acc false cs = some (cs.foldl (fun a c => 10 * a + digitVal c) acc) := by
  induction cs generalizing acc with
  | nil => rfl
  | cons c cs ih =>
    have hc : c.isDigit = true := h c (by simp)
    simp only [digitsGo, hc, if_true, List.foldl_cons]
    exact ih (fun x hx => h x (by simp [hx])) _

/-- Models `int(str)` on a plain nonempty ASCII digit string yields its decimal
value. -/
theorem toInt_digits {c : Char} {cs : List Char} (hc : c.isDigit = true)
    (hcs : ∀ x ∈ cs, x.isDigit = true) :
    toInt (String.mk (c :: cs)) = some ((decVal (c :: cs) : Nat) : Int) := by
  have hall : ∀ x ∈ c :: cs, isSpaceChar x = false := by
    intro x hx
    rcases List.mem_cons.mp hx with h | h
    · exact digit_not_space (h ▸ hc)
    · exact digit_not_space (hcs x h)
  have hstrip :
      (((c :: cs).dropWhile isSpaceChar).reverse.dropWhile isSpaceChar).reverse
        = c :: cs := by
    rw [dropWhile_eq_self hall, dropWhile_eq_self, List.reverse_reverse]
    intro x hx
    exact hall x (List.mem_reverse.mp hx)
  have hdata : (String.mk (c :: cs)).data = c :: cs := rfl
  unfold toInt
  rw [hdata, hstrip]
  simp only [toIntCore]
  rw [if_neg (digit_ne_dash hc), if_neg (digit_ne_plus hc)]
  rw [show digits (c :: cs) = digitsGo (digitVal c) false cs by
        simp only [digits]; rw [if_pos hc]]
  rw [digitsGo_all cs hcs]
  simp [decVal, digitVal]

theorem dropThrough_append_cons {c : Char} {l₁ l₂ : List Char} (h : c ∉ l₁) :
    dropThrough c (l₁ ++ c :: l₂) = l₂ := by
  induction l₁ with
  | nil => simp [dropThrough]
  | cons x xs ih =>
    have hx : x ≠ c := by rintro rfl; exact h (by simp)
    simp only [List.cons_append, dropThrough, if_neg hx]
    exact ih (fun hm => h (by simp [hm]))

theorem takeUntil_eq_self {c : Char} {l : List Char} (h : c ∉ l) :
    takeUntil c l = l := by
  induction l with
  | nil => rfl
  | cons x xs ih =>
    have hx : x ≠ c := by rintro rfl; exact h (by simp)
    simp only [takeUntil, if_neg hx]
    rw [ih (fun hm => h (by simp [hm]))]

theorem digit_ne_colon {c : Char} (h : c.isDigit = true) : c ≠ ':' := by
  rintro rfl; exact absurd h (by decide)

end Py

-- sanity checks on the Python-builtin models
example : Py.toInt "12" = some 12 := by decide
example : Py.toInt " -7 " = some (-7) := by decide
example : Py.toInt "12:34" = none := by decide
example : Py.toInt "1_2" = some 12 := by decide
example : Py.toInt "_12" = none := by decide
example : Py.toInt "12_" = none := by decide
example : Py.toInt "" = none := by decide
example : Py.pad3 7 = "007" := by decide
example : Py.splitField1 ':' "TOTAL:12:34" = "12" := by decide
example : Py.splitOnce1 ':' "STATE:a:b" = "a:b" := by decide
example : Py.startsWith "ERR: x" "ERR:" = true := by decide
example : Py.containsSub "a DEBUG: b" "DEBUG:" = true := by decide

namespace V1

/-- The V1 device-list refresh never writes `total_devices`. -/
theorem update_device_lists_total (s : St) :
    (update_device_lists s).total_devices = s.total_devices := by
  simp only [update_device_lists]
  split
  · split <;> split <;> rfl
  · rfl

end V1

namespace V3

/-- The timestamp format `"[%H:%M:%S]"` contains no space, so stripping
the first space-separated token of `full_message` recovers the original
message text. -/
theorem stripTs_timestamped {ts : String} (m : String)
    (h : ' ' ∉ ts.data) : stripTs (ts ++ " " ++ m) = m := by
  have hdata : (ts ++ " " ++ m).data = ts.data ++ ' ' :: m.data := by
    rw [Py.data_append, Py.data_append]
    simp
  unfold stripTs
  rw [hdata]
  have hc : (ts.data ++ ' ' :: m.data).contains ' ' = true := by
    simp
  rw [if_pos hc, Py.dropThrough_append_cons h]

/-- Unfolding of `log_message` as a single record update: the entry is
always appended to the buffer, and to the visible widget exactly when the
filter does not hide it. -/
theorem log_message_eq (ts m : String) (tag : Option String) (s : St) :
    log_message ts m tag s =
      { s with
        log_buffer := s.log_buffer ++ [⟨ts ++ " " ++ m, tag⟩],
        log_text := s.log_text ++
          (if s.debug_filter_var && dbgPred m then [] else [⟨ts ++ " " ++ m, tag⟩]) } := by
  unfold log_message should_filter_message append_to_log
  split <;> simp_all

/-- Filtering distributes over buffer concatenation. -/
theorem visFilter_append (b : Bool) (l1 l2 : List Entry) :
    visFilter b (l1 ++ l2) = visFilter b l1 ++ visFilter b l2 := by
  simp [visFilter]

/-- Projections of `log_message`. -/
theorem log_message_buffer (ts m : String) (tag : Option String) (s : St) :
    (log_message ts m tag s).log_buffer = s.log_buffer ++ [⟨ts ++ " " ++ m, tag⟩] := by
  rw [log_message_eq]

theorem log_message_flag (ts m : String) (tag : Option String) (s : St) :
    (log_message ts m tag s).debug_filter_var = s.debug_filter_var := by
  rw [log_message_eq]



theorem step_inv {e : Ev} {s : St} (he : tsOk e) (h : Inv s) : Inv (step e s) := by
  cases e with
  | log ts m tag =>
    unfold Inv at h ⊢
    rw [step, log_message_eq]
    have hstrip := stripTs_timestamped m (he : ' ' ∉ ts.data)
    simp only [visFilter_append, h]
    congr 1
    simp only [visFilter, List.filter, hstrip]
    cases hd : s.debug_filter_var && dbgPred m <;> simp
  | setFilter b =>
    unfold Inv
    rfl

theorem run_inv {es : List Ev} {s : St} (hts : ∀ e ∈ es, tsOk e) (h : Inv s) :
    Inv (run es s) := by
  induction es generalizing s with
  | nil => exact h
  | cons e es ih =>
    exact ih (fun x hx => hts x (by simp [hx])) (step_inv (hts e (by simp)) h)

theorem run_append (es1 es2 : List Ev) (s : St) :
    run (es1 ++ es2) s = run es2 (run es1 s) :=
  List.foldl_append _ _ _ _


theorem run_logs_buffer (L : List (String × String × Option String)) (s : St) :
    (run (evsOf L) s).log_buffer = s.log_buffer ++ entriesOf L ∧
    (run (evsOf L) s).debug_filter_var = s.debug_filter_var := by
  induction L generalizing s with
  | nil => simp [run, evsOf, entriesOf]
  | cons x L ih =>
    have hstep : step (.log x.1 x.2.1 x.2.2) s =
        log_message x.1 x.2.1 x.2.2 s := rfl
    have h1 : run (evsOf (x :: L)) s = run (evsOf L) (log_message x.1 x.2.1 x.2.2 s) := by
      simp [evsOf, run, List.foldl_cons, hstep]
    rw [h1]
    obtain ⟨hb, hf⟩ := ih (log_message x.1 x.2.1 x.2.2 s)
    constructor
    · rw [hb, log_message_buffer]
      simp [entriesOf]
    · rw [hf, log_message_flag]

theorem set_debug_filter_buffer (b : Bool) (s : St) :
    (set_debug_filter b s).log_buffer = s.log_buffer := rfl

theorem set_debug_filter_text (b : Bool) (s : St) :
    (set_debug_filter b s).log_text = visFilter b s.log_buffer := rfl

theorem step_setFilter (b : Bool) (s : St) :
    step (.setFilter b) s = set_debug_filter b s := rfl

theorem entriesOf_append (L1 L2 : List (String × String × Option String)) :
    entriesOf (L1 ++ L2) = entriesOf L1 ++ entriesOf L2 := by
  simp [entriesOf]

theorem tsOk_evsOf {L : List (String × String × Option String)}
    (h : ∀ x ∈ L, ' ' ∉ x.1.data) : ∀ e ∈ evsOf L, tsOk e := by
  intro e he
  obtain ⟨x, hx, rfl⟩ := List.mem_map.mp he
  exact h x hx

/-- Fields of the state that `log_message` never writes. -/
@[simp] theorem log_message_total_devices (ts m : String) (tag : Option String) (s : St) :
    (log_message ts m tag s).total_devices = s.total_devices := by rw [log_message_eq]

@[simp] theorem log_message_system_state (ts m : String) (tag : Option String) (s : St) :
    (log_message ts m tag s).system_state = s.system_state := by rw [log_message_eq]

@[simp] theorem log_message_group_total (ts m : String) (tag : Option String) (s : St) :
    (log_message ts m tag s).group_total_var = s.group_total_var := by rw [log_message_eq]

@[simp] theorem log_message_group_id (ts m : String) (tag : Option String) (s : St) :
    (log_message ts m tag s).group_id_var = s.group_id_var := by rw [log_message_eq]

@[simp] theorem log_message_group_id_values (ts m : String) (tag : Option String) (s : St) :
    (log_message ts m tag s).group_id_values = s.group_id_values := by rw [log_message_eq]

@[simp] theorem log_message_frame_count (ts m : String) (tag : Option String) (s : St) :
    (log_message ts m tag s).frame_count_var = s.frame_count_var := by rw [log_message_eq]

@[simp] theorem log_message_interframe_delay (ts m : String) (tag : Option String) (s : St) :
    (log_message ts m tag s).interframe_delay_var = s.interframe_delay_var := by
  rw [log_message_eq]

@[simp] theorem log_message_serial_written (ts m : String) (tag : Option String) (s : St) :
    (log_message ts m tag s).serial_written = s.serial_written := by rw [log_message_eq]

@[simp] theorem log_message_warnings (ts m : String) (tag : Option String) (s : St) :
    (log_message ts m tag s).warnings = s.warnings := by rw [log_message_eq]

@[simp] theorem log_message_is_connected (ts m : String) (tag : Option String) (s : St) :
    (log_message ts m tag s).is_connected = s.is_connected := by rw [log_message_eq]

@[simp] theorem log_message_has_port (ts m : String) (tag : Option String) (s : St) :
    (log_message ts m tag s).has_port = s.has_port := by rw [log_message_eq]

@[simp] theorem log_message_connection_status (ts m : String) (tag : Option String) (s : St) :
    (log_message ts m tag s).connection_status = s.connection_status := by
  rw [log_message_eq]

@[simp] theorem log_message_current_var (ts m : String) (tag : Option String) (s : St) :
    (log_message ts m tag s).current_var = s.current_var := by rw [log_message_eq]

@[simp] theorem log_message_exposure_var (ts m : String) (tag : Option String) (s : St) :
    (log_message ts m tag s).exposure_var = s.exposure_var := by rw [log_message_eq]

@[simp] theorem log_message_led_device_var (ts m : String) (tag : Option String) (s : St) :
    (log_message ts m tag s).led_device_var = s.led_device_var := by rw [log_message_eq]


/-- The device-list refreshers never write `total_devices` or the group
fields. -/
theorem update_servo_device_list_total (s : St) :
    (update_servo_device_list s).total_devices = s.total_devices := by
  simp only [update_servo_device_list]
  split <;> rfl

theorem update_led_device_list_total (s : St) :
    (update_led_device_list s).total_devices = s.total_devices := by
  simp only [update_led_device_list]
  split <;> rfl

end V3


/-!
## Claims
-/

/-- C3 (amended): In V3, DEBUG filtering is a display-time predicate over
a retained buffer that filtering never mutates: for any lines logged
around a toggle of the filter flag to off and back to on, the visible log
and the retained buffer are exactly those of continuous filtering, and
`refresh_log_display` deletes nothing from the buffer.  In V1, by
contrast, the filter runs at ingest: with the flag on, a `DEBUG:`-prefixed
line is dropped before reaching the log, so the claimed toggle-invariance
fails there (see the counterexample). -/
theorem c3_debug_filter_display_time_v3
    (L1 L2 : List (String × String × Option String))
    (hts : ∀ x ∈ L1 ++ L2, ' ' ∉ x.1.data) :
    ((V3.run (V3.evsOf L1 ++ [V3.Ev.setFilter false] ++ V3.evsOf L2
        ++ [V3.Ev.setFilter true]) V3.init).log_text
      = (V3.run (V3.evsOf (L1 ++ L2)) V3.init).log_text) ∧
    ((V3.run (V3.evsOf L1 ++ [V3.Ev.setFilter false] ++ V3.evsOf L2
        ++ [V3.Ev.setFilter true]) V3.init).log_buffer
      = (V3.run (V3.evsOf (L1 ++ L2)) V3.init).log_buffer) ∧
    (∀ s : V3.St, (V3.refresh_log_display s).log_buffer = s.log_buffer) := by
  have hts1 : ∀ x ∈ L1, ' ' ∉ x.1.data := fun x hx => hts x (by simp [hx])
  have hts2 : ∀ x ∈ L2, ' ' ∉ x.1.data := fun x hx => hts x (by simp [hx])
  -- state after the toggled run, before the final `setFilter true`
  set sP := V3.run (V3.evsOf L1 ++ [V3.Ev.setFilter false] ++ V3.evsOf L2) V3.init with hsP
  have hA : V3.run (V3.evsOf L1 ++ [V3.Ev.setFilter false] ++ V3.evsOf L2
      ++ [V3.Ev.setFilter true]) V3.init = V3.step (.setFilter true) sP := by
    rw [hsP, V3.run_append]
    rfl
  -- buffer accumulated along the toggled run
  have hPbuf : sP.log_buffer = V3.entriesOf L1 ++ V3.entriesOf L2 := by
    rw [hsP, V3.run_append, V3.run_append]
    obtain ⟨hb1, _⟩ := V3.run_logs_buffer L1 V3.init
    obtain ⟨hb2, _⟩ :=
      V3.run_logs_buffer L2 (V3.step (.setFilter false) (V3.run (V3.evsOf L1) V3.init))
    have : V3.run [V3.Ev.setFilter false] (V3.run (V3.evsOf L1) V3.init)
        = V3.step (.setFilter false) (V3.run (V3.evsOf L1) V3.init) := rfl
    rw [this, hb2, V3.step_setFilter, V3.set_debug_filter_buffer, hb1]
    simp [V3.init]
  -- the continuous run keeps the invariant and the filter flag
  obtain ⟨hBbuf, hBflag⟩ := V3.run_logs_buffer (L1 ++ L2) V3.init
  have hBinv : V3.Inv (V3.run (V3.evsOf (L1 ++ L2)) V3.init) :=
    V3.run_inv (V3.tsOk_evsOf hts) (by rfl)
  refine ⟨?_, ?_, fun s => rfl⟩
  · rw [hA, V3.step_setFilter, V3.set_debug_filter_text, hPbuf]
    rw [hBinv, hBflag, hBbuf]
    simp [V3.init, V3.entriesOf_append]
  · rw [hA, V3.step_setFilter, V3.set_debug_filter_buffer, hPbuf, hBbuf]
    simp [V3.init, V3.entriesOf_append]

/-- Witness for C3: a concrete two-line scenario (one `DEBUG:` line, one
plain line) with well-formed timestamps. -/
theorem c3_debug_filter_display_time_v3_witness :
    (∀ x ∈ [("[10:00:00]", ("DEBUG:hi", (none : Option String)))]
        ++ [("[10:00:01]", ("hello", (none : Option String)))], ' ' ∉ x.1.data) ∧
    ((V3.run (V3.evsOf [("[10:00:00]", ("DEBUG:hi", none))] ++ [V3.Ev.setFilter false]
        ++ V3.evsOf [("[10:00:01]", ("hello", none))] ++ [V3.Ev.setFilter true]) V3.init).log_text
      = (V3.run (V3.evsOf ([("[10:00:00]", ("DEBUG:hi", none))]
        ++ [("[10:00:01]", ("hello", none))])) V3.init).log_text) :=
  ⟨by decide,
   (c3_debug_filter_display_time_v3
      [("[10:00:00]", ("DEBUG:hi", none))] [("[10:00:01]", ("hello", none))]
      (by decide)).1⟩

/-- C3 counterexample: in V1 the DEBUG filter is not a display-time
predicate — turning the filter off, receiving `DEBUG:x`, and turning it
back on leaves the line visible, whereas continuous filtering would have
dropped it, so the two visible logs differ. -/
theorem c3_v1_toggle_counterexample :
    (V1.run [V1.Ev.setFilter false, V1.Ev.line "DEBUG:x", V1.Ev.setFilter true]
        V1.init).log_lines
      ≠ (V1.run [V1.Ev.line "DEBUG:x"] V1.init).log_lines := by decide

/-- C4 (amended): In V1, error- and emergency-classified lines are never
suppressed by the DEBUG filter — the V1 filter tests only whether the raw
line starts with `DEBUG:`, which an `ERR:`/`EMERGENCY:`-prefixed line
cannot, so the line is logged for every payload and filter-flag value.
In V3, the error-classified line is always retained in the log buffer,
but (see the counterexample) the visible widget can suppress it when it
contains `DEBUG:` as substring text. -/
theorem c4_error_lines_and_debug_filter :
    (∀ (s : V1.St) (p : String),
      V1.process_serial_data ("ERR:" ++ p) s
        = .ok (V1.log_message ("❌ Error: " ++ ("ERR:" ++ p)) s)) ∧
    (∀ (s : V1.St) (p : String),
      V1.process_serial_data ("EMERGENCY:" ++ p) s
        = .ok (V1.log_message ("🚨 " ++ ("EMERGENCY:" ++ p)) s)) ∧
    (∀ (s : V3.St) (ts p : String),
      (V3.handle_serial_message ts ("ERR:" ++ p) s).log_buffer
        = s.log_buffer ++ [⟨ts ++ " " ++ ("<< " ++ ("ERR:" ++ p)), none⟩,
                           ⟨ts ++ " " ++ ("ERR:" ++ p), some "error"⟩]) := by
  refine ⟨fun s p => ?_, fun s p => ?_, fun s ts p => ?_⟩
  · have h1 : Py.startsWith ("ERR:" ++ p) "DEBUG:" = false := rfl
    have h2 : Py.startsWith ("ERR:" ++ p) "TOTAL:" = false := rfl
    have h3 : Py.startsWith ("ERR:" ++ p) "STATE:" = false := rfl
    have h4 : Py.startsWith ("ERR:" ++ p) "INA226:" = false := rfl
    have h5 : Py.startsWith ("ERR:" ++ p) "EOT" = false := rfl
    have h6 : Py.startsWith ("ERR:" ++ p) "ERR:" = true := Py.startsWith_of_append "ERR:" p
    simp [V1.process_serial_data, h1, h2, h3, h4, h5, h6]
  · have h1 : Py.startsWith ("EMERGENCY:" ++ p) "DEBUG:" = false := rfl
    have h2 : Py.startsWith ("EMERGENCY:" ++ p) "TOTAL:" = false := rfl
    have h3 : Py.startsWith ("EMERGENCY:" ++ p) "STATE:" = false := rfl
    have h4 : Py.startsWith ("EMERGENCY:" ++ p) "INA226:" = false := rfl
    have h5 : Py.startsWith ("EMERGENCY:" ++ p) "EOT" = false := rfl
    have h6 : Py.startsWith ("EMERGENCY:" ++ p) "ERR:" = false := rfl
    have h7 : Py.startsWith ("EMERGENCY:" ++ p) "EMERGENCY:" = true :=
      Py.startsWith_of_append "EMERGENCY:" p
    simp [V1.process_serial_data, h1, h2, h3, h4, h5, h6, h7]
  · have h1 : Py.startsWith ("ERR:" ++ p) "VER:" = false := rfl
    have h2 : Py.startsWith ("ERR:" ++ p) "TOTAL:" = false := rfl
    have h3 : Py.startsWith ("ERR:" ++ p) "STATE:" = false := rfl
    have h4 : Py.startsWith ("ERR:" ++ p) "GROUP_TOTAL:" = false := rfl
    have h5 : Py.startsWith ("ERR:" ++ p) "FRAME_COUNT:" = false := rfl
    have h6 : Py.startsWith ("ERR:" ++ p) "INTERFRAME_DELAY:" = false := rfl
    have h7 : Py.startsWith ("ERR:" ++ p) "EOT" = false := rfl
    have h8 : Py.startsWith ("ERR:" ++ p) "PROGRAM_ACK:" = false := rfl
    have h9 : Py.startsWith ("ERR:" ++ p) "FRAME_SET:" = false := rfl
    have h10 : Py.startsWith ("ERR:" ++ p) "ERR:" = true := Py.startsWith_of_append "ERR:" p
    simp [V3.handle_serial_message, h1, h2, h3, h4, h5, h6, h7, h8, h9, h10,
          V3.log_message_buffer]

/-- C4 counterexample: in V3, an error-classified line whose text contains
the `DEBUG:` marker is suppressed from the visible log while the filter is
enabled (it survives only in the retained buffer), contradicting the claim
that error lines are never suppressed. -/
theorem c4_v3_err_line_filtered_counterexample :
    V3.init.debug_filter_var = true ∧
    Py.startsWith "ERR: fail DEBUG: x" "ERR:" = true ∧
    Py.containsSub "ERR: fail DEBUG: x" "DEBUG:" = true ∧
    (V3.handle_serial_message "[10:00:00]" "ERR: fail DEBUG: x" V3.init).log_text = [] := by
  decide

/-- C6 (amended): disconnect does not reset the DeviceState fields.  In
V3, `disconnect` leaves `total_devices`, `system_state`,
`group_total_var`, `frame_count_var` and `interframe_delay_var` exactly as
they were (only the connection flags and label change).  In V1, the
disconnect branch resets the three status *labels* to `"0"`/`"Unknown"`
but leaves the underlying state attributes untouched. -/
theorem c6_disconnect_preserves_device_state :
    (∀ (s : V3.St) (ts : String),
      (V3.disconnect ts s).total_devices = s.total_devices ∧
      (V3.disconnect ts s).system_state = s.system_state ∧
      (V3.disconnect ts s).group_total_var = s.group_total_var ∧
      (V3.disconnect ts s).frame_count_var = s.frame_count_var ∧
      (V3.disconnect ts s).interframe_delay_var = s.interframe_delay_var ∧
      (V3.disconnect ts s).is_connected = false ∧
      (V3.disconnect ts s).connection_status = "Disconnected") ∧
    (∀ s : V1.St,
      (V1.disconnect s).total_devices = s.total_devices ∧
      (V1.disconnect s).system_state = s.system_state ∧
      (V1.disconnect s).ina226_status = s.ina226_status ∧
      (V1.disconnect s).device_count_label = "0" ∧
      (V1.disconnect s).state_label = "Unknown" ∧
      (V1.disconnect s).ina226_label = "Unknown" ∧
      (V1.disconnect s).is_connected = false) := by
  constructor
  · intro s ts
    refine ⟨?_, ?_, ?_, ?_, ?_, ?_, ?_⟩ <;> simp [V3.disconnect]
  · intro s
    refine ⟨?_, ?_, ?_, ?_, ?_, ?_, ?_⟩ <;> simp [V1.disconnect, V1.log_message]

/-- C6 counterexample: after a V3 disconnect from a state with five
detected devices, `total_devices` is still `5`, not the claimed default
`0`. -/
theorem c6_disconnect_counterexample :
    (V3.disconnect "[10:00:00]" { V3.init with total_devices := 5 }).total_devices = 5 ∧
    (V3.disconnect "[10:00:00]" { V3.init with total_devices := 5 }).total_devices ≠ 0 := by
  decide

/-- C7 (amended): for an inbound `STATE:<s>` line, V3 sets `systemState`
to the raw trailing string after the first colon; V1 instead truncates at
the next colon, setting it to the first colon-separated field of the
payload (the two agree exactly when the payload contains no further
colon). -/
theorem c7_state_payload_dispatch :
    (∀ (s : V3.St) (ts p : String),
      (V3.handle_serial_message ts ("STATE:" ++ p) s).system_state = p) ∧
    (∀ (s : V1.St) (p : String),
      V1.process_serial_data ("STATE:" ++ p) s
        = .ok { s with system_state := String.mk (Py.takeUntil ':' p.data),
                       state_label := String.mk (Py.takeUntil ':' p.data) }) := by
  constructor
  · intro s ts p
    have h1 : Py.startsWith ("STATE:" ++ p) "VER:" = false := rfl
    have h2 : Py.startsWith ("STATE:" ++ p) "TOTAL:" = false := rfl
    have h3 : Py.startsWith ("STATE:" ++ p) "STATE:" = true := Py.startsWith_of_append "STATE:" p
    have h4 : Py.splitOnce1 ':' ("STATE:" ++ p) = p := rfl
    simp [V3.handle_serial_message, h1, h2, h3, h4]
  · intro s p
    have h1 : Py.startsWith ("STATE:" ++ p) "DEBUG:" = false := rfl
    have h2 : Py.startsWith ("STATE:" ++ p) "TOTAL:" = false := rfl
    have h3 : Py.startsWith ("STATE:" ++ p) "STATE:" = true := Py.startsWith_of_append "STATE:" p
    have h4 : Py.splitField1 ':' ("STATE:" ++ p)
        = String.mk (Py.takeUntil ':' p.data) := rfl
    simp [V1.process_serial_data, h1, h2, h3, h4]

/-- C7 counterexample: dispatching `STATE:a:b` in V1 sets `systemState`
to `"a"`, not the raw trailing string `"a:b"`. -/
theorem c7_v1_truncation_counterexample :
    (V1.consume ["STATE:a:b"] V1.init).system_state = "a" ∧
    (V1.consume ["STATE:a:b"] V1.init).system_state ≠ "a:b" := by decide

/-- C1 (amended): In V3, encoding a SetServo intent succeeds iff the
angle lies in [60,120]: in range, exactly `"<device>,servo,<angle>\n"` is
written to the transport; out of range, an error dialog is raised and
nothing is written.  V1's `set_servo`, by contrast, performs no range
validation at all: it writes `"<device>,servo,<angle>\n"` for every
integer angle (see the counterexample). -/
theorem c1_servo_range_validation :
    (∀ (s : V3.St) (ts : String), s.is_connected = true → s.has_port = true →
      ((60 ≤ s.servo_angle_var ∧ s.servo_angle_var ≤ 120 →
        (V3.send_servo_command ts s).serial_written = s.serial_written ++
          [(if s.servo_target_mode = "all" then "000"
            else Py.firstSpaceField s.servo_device_var) ++ ",servo,"
            ++ toString s.servo_angle_var ++ "\n"]) ∧
       (s.servo_angle_var < 60 ∨ 120 < s.servo_angle_var →
        (V3.send_servo_command ts s).serial_written = s.serial_written ∧
        (V3.send_servo_command ts s).warnings = s.warnings ++
          ["Servo angle must be between 60 and 120 degrees"]))) ∧
    (∀ s : V1.St, s.is_connected = true → s.has_port = true →
      (V1.set_servo s).serial_written = s.serial_written ++
        [(if s.servo_target_var = "all" then "000" else s.servo_device_var)
          ++ ",servo," ++ toString s.servo_angle_var ++ "\n"]) := by
  constructor
  · intro s ts hc hp
    constructor
    · rintro ⟨hlo, hhi⟩
      have hcond : (s.servo_angle_var < 60 || s.servo_angle_var > 120) = false := by
        simp only [Bool.or_eq_false_iff, decide_eq_false_iff_not]
        omega
      simp [V3.send_servo_command, hcond, V3.send_command, hc, hp]
    · intro hout
      have hcond : (s.servo_angle_var < 60 || s.servo_angle_var > 120) = true := by
        simp only [Bool.or_eq_true, decide_eq_true_eq]
        rcases hout with h | h
        · exact Or.inl h
        · exact Or.inr h
      constructor <;> simp [V3.send_servo_command, hcond]
  · intro s hc hp
    simp [V1.set_servo, V1.send_command, hc, hp, V1.log_message]

/-- Witness for C1: at angle 90 the in-range branch writes the command;
at angle 150 the out-of-range branch writes nothing and warns. -/
theorem c1_servo_range_validation_witness :
    (V3.send_servo_command "[10:00:00]" V3.init).serial_written = ["000,servo,90\n"] ∧
    (V3.send_servo_command "[10:00:00]"
        { V3.init with servo_angle_var := 150 }).serial_written = [] ∧
    (V3.send_servo_command "[10:00:00]"
        { V3.init with servo_angle_var := 150 }).warnings
      = ["Servo angle must be between 60 and 120 degrees"] := by
  refine ⟨?_, ?_, ?_⟩
  · have h := (c1_servo_range_validation.1 V3.init "[10:00:00]" rfl rfl).1 (by decide)
    simpa using h
  · have h := ((c1_servo_range_validation.1 { V3.init with servo_angle_var := 150 }
      "[10:00:00]" rfl rfl).2 (by decide)).1
    simpa using h
  · have h := ((c1_servo_range_validation.1 { V3.init with servo_angle_var := 150 }
      "[10:00:00]" rfl rfl).2 (by decide)).2
    simpa using h

/-- C1 counterexample: in V1, a SetServo intent at angle 150 — outside
[60,120] — is encoded and written to the transport anyway (no
`ValidationError`, bytes are written), contradicting the claim. -/
theorem c1_v1_no_validation_counterexample :
    ¬ (150 ≤ (120 : Int)) ∧
    (V1.set_servo { V1.init with servo_angle_var := 150 }).serial_written
      = ["000,servo,150\n"] := by decide

/-- C2 (amended): For a `TOTAL:` line whose payload is a plain decimal
numeral, both versions set `totalDevices` to its value.  For a payload
that does not parse as a Python int, V3 leaves `totalDevices` unchanged
and ignores the line silently.  V1, however, first truncates the payload
at the next colon (see the counterexample for the resulting divergence),
and when that first field does not parse, `int()` raises a `ValueError`
out of the handler — `totalDevices` is still unchanged and the consumer
is not stalled: subsequent lines are processed as usual. -/
theorem c2_total_devices_dispatch :
    (∀ (s : V3.St) (ts : String) (c : Char) (cs : List Char),
      c.isDigit = true → (∀ x ∈ cs, x.isDigit = true) →
      (V3.handle_serial_message ts ("TOTAL:" ++ String.mk (c :: cs)) s).total_devices
        = (Py.decVal (c :: cs) : Int)) ∧
    (∀ (s : V3.St) (ts p : String), Py.toInt p = none →
      (V3.handle_serial_message ts ("TOTAL:" ++ p) s).total_devices
        = s.total_devices) ∧
    (∀ (s : V1.St) (c : Char) (cs : List Char),
      c.isDigit = true → (∀ x ∈ cs, x.isDigit = true) →
      (V1.process_serial_data ("TOTAL:" ++ String.mk (c :: cs)) s).toOption.map
          (fun r => r.total_devices)
        = some ((Py.decVal (c :: cs) : Nat) : Int)) ∧
    (∀ (s : V1.St) (p : String),
      Py.toInt (Py.splitField1 ':' ("TOTAL:" ++ p)) = none →
      V1.process_serial_data ("TOTAL:" ++ p) s = .error "ValueError" ∧
      ∀ rest, V1.consume (("TOTAL:" ++ p) :: rest) s = V1.consume rest s) := by
  refine ⟨fun s ts c cs hc hcs => ?_, fun s ts p hp => ?_,
          fun s c cs hc hcs => ?_, fun s p hp => ?_⟩
  · have h1 : Py.startsWith ("TOTAL:" ++ String.mk (c :: cs)) "VER:" = false := rfl
    have h2 : Py.startsWith ("TOTAL:" ++ String.mk (c :: cs)) "TOTAL:" = true :=
      Py.startsWith_of_append "TOTAL:" _
    have h3 : Py.splitOnce1 ':' ("TOTAL:" ++ String.mk (c :: cs))
        = String.mk (c :: cs) := rfl
    have h4 : Py.toInt (String.mk (c :: cs)) = some ((Py.decVal (c :: cs) : Nat) : Int) :=
      Py.toInt_digits hc hcs
    simp [V3.handle_serial_message, h1, h2, h3, h4,
          V3.update_led_device_list_total, V3.update_servo_device_list_total]
  · have h1 : Py.startsWith ("TOTAL:" ++ p) "VER:" = false := rfl
    have h2 : Py.startsWith ("TOTAL:" ++ p) "TOTAL:" = true :=
      Py.startsWith_of_append "TOTAL:" p
    have h3 : Py.splitOnce1 ':' ("TOTAL:" ++ p) = p := rfl
    simp [V3.handle_serial_message, h1, h2, h3, hp]
  · have h1 : Py.startsWith ("TOTAL:" ++ String.mk (c :: cs)) "DEBUG:" = false := rfl
    have h2 : Py.startsWith ("TOTAL:" ++ String.mk (c :: cs)) "TOTAL:" = true :=
      Py.startsWith_of_append "TOTAL:" _
    have h3 : Py.splitField1 ':' ("TOTAL:" ++ String.mk (c :: cs))
        = String.mk (Py.takeUntil ':' (c :: cs)) := rfl
    have hnc : Py.takeUntil ':' (c :: cs) = c :: cs := by
      refine Py.takeUntil_eq_self ?_
      intro hm
      rcases List.mem_cons.mp hm with h | h
      · exact Py.digit_ne_colon hc h.symm
      · exact Py.digit_ne_colon (hcs _ h) rfl
    have h4 : Py.toInt (String.mk (c :: cs)) = some ((Py.decVal (c :: cs) : Nat) : Int) :=
      Py.toInt_digits hc hcs
    rw [hnc] at h3
    simp only [V1.process_serial_data, h1, h2, h3, h4, Bool.and_false, Bool.false_eq_true,
               if_false, if_true]
    simp [Except.toOption, V1.update_device_lists_total]
  · have h1 : Py.startsWith ("TOTAL:" ++ p) "DEBUG:" = false := rfl
    have h2 : Py.startsWith ("TOTAL:" ++ p) "TOTAL:" = true :=
      Py.startsWith_of_append "TOTAL:" p
    have herr : V1.process_serial_data ("TOTAL:" ++ p) s = .error "ValueError" := by
      simp [V1.process_serial_data, h1, h2, hp]
    refine ⟨herr, fun rest => ?_⟩
    simp [V1.consume, herr]

/-- Witness for C2: `TOTAL:17` sets the count to 17 in V3, and a
non-numeric V1 payload raises (leaving state untouched). -/
theorem c2_total_devices_dispatch_witness :
    (V3.handle_serial_message "[10:00:00]" ("TOTAL:" ++ String.mk ['1', '7'])
        V3.init).total_devices = 17 ∧
    V1.process_serial_data ("TOTAL:" ++ "abc") V1.init = .error "ValueError" :=
  ⟨(c2_total_devices_dispatch.1 V3.init "[10:00:00]" '1' ['7']
      (by decide) (by decide)).trans (by decide),
   (c2_total_devices_dispatch.2.2.2 V1.init "abc" (by decide)).1⟩

/-- C2 counterexample: the payload `12:34` of `TOTAL:12:34` is not
numeric (`int("12:34")` raises), yet V1 — which splits on every colon —
updates `totalDevices` from 0 to 12, contradicting the claim that a
non-numeric payload leaves the field unchanged. -/
theorem c2_v1_colon_payload_counterexample :
    Py.toInt "12:34" = none ∧
    (V1.consume ["TOTAL:12:34"] V1.init).total_devices = 12 ∧
    (V1.consume ["TOTAL:12:34"] V1.init).total_devices ≠ V1.init.total_devices := by
  decide

/-- Unfolding of `send_program_command` once the group-id string is
known to parse. -/
theorem V3.send_program_command_some {s : V3.St} {ts : String} {gid : Int}
    (hgid : Py.toInt s.group_id_var = some gid) :
    V3.send_program_command ts s =
      (if s.current_var < 0 || s.current_var > 1500 then
        .ok { s with warnings := s.warnings ++ ["Current must be between 0 and 1500 mA"] }
      else if s.exposure_var < 10 then
        .ok { s with warnings := s.warnings ++ ["Exposure must be at least 10 ms"] }
      else if gid < 1 || gid > s.group_total_var then
        .ok { s with warnings := s.warnings ++
          ["Group ID must be between 1 and " ++ toString s.group_total_var] }
      else
        .ok (V3.send_command
          (Py.firstSpaceField s.led_device_var ++ ",program,\x7b" ++ toString gid ++ ","
            ++ toString s.group_total_var ++ "," ++ toString s.current_var ++ ","
            ++ toString s.exposure_var ++ "\x7d") ts s).2) := by
  unfold V3.send_program_command
  rw [hgid]

/-- C5: V3's Program encoding succeeds — writing exactly
`"<device>,program,{gid,gtotal,ma,exposure}\n"` — iff `ma ∈ [0,1500]`,
`exposure ≥ 10` and `1 ≤ gid ≤ gtotal`; on any validation failure nothing
is written to the transport. -/
theorem c5_program_validation (s : V3.St) (ts : String) (gid : Int)
    (hc : s.is_connected = true) (hp : s.has_port = true)
    (hgid : Py.toInt s.group_id_var = some gid) :
    (V3.send_program_command ts s).toOption.map (fun r => r.serial_written)
      = some (if 0 ≤ s.current_var ∧ s.current_var ≤ 1500 ∧ 10 ≤ s.exposure_var
                ∧ 1 ≤ gid ∧ gid ≤ s.group_total_var
        then s.serial_written ++
          [Py.firstSpaceField s.led_device_var ++ ",program,\x7b"
            ++ toString gid ++ "," ++ toString s.group_total_var ++ ","
            ++ toString s.current_var ++ "," ++ toString s.exposure_var
            ++ "\x7d" ++ "\n"]
        else s.serial_written) := by
  rw [V3.send_program_command_some hgid]
  by_cases hcur : s.current_var < 0 ∨ 1500 < s.current_var
  · have hb : (s.current_var < 0 || s.current_var > 1500) = true := by
      simp only [Bool.or_eq_true, decide_eq_true_eq]
      exact hcur
    rw [if_pos hb]
    have hP : ¬(0 ≤ s.current_var ∧ s.current_var ≤ 1500 ∧ 10 ≤ s.exposure_var
        ∧ 1 ≤ gid ∧ gid ≤ s.group_total_var) := by
      rintro ⟨a, b, _, _, _⟩
      rcases hcur with h | h <;> omega
    simp [Except.toOption, hP]
  · have hb : (s.current_var < 0 || s.current_var > 1500) = false := by
      simp only [Bool.or_eq_false_iff, decide_eq_false_iff_not]
      constructor <;> omega
    rw [if_neg (by simp [hb])]
    by_cases hexp : s.exposure_var < 10
    · rw [if_pos hexp]
      have hP : ¬(0 ≤ s.current_var ∧ s.current_var ≤ 1500 ∧ 10 ≤ s.exposure_var
          ∧ 1 ≤ gid ∧ gid ≤ s.group_total_var) := by
        rintro ⟨_, _, h, _, _⟩
        omega
      simp [Except.toOption, hP]
    · rw [if_neg hexp]
      by_cases hgrp : gid < 1 ∨ s.group_total_var < gid
      · have hb2 : (gid < 1 || gid > s.group_total_var) = true := by
          simp only [Bool.or_eq_true, decide_eq_true_eq]
          exact hgrp
        rw [if_pos hb2]
        have hP : ¬(0 ≤ s.current_var ∧ s.current_var ≤ 1500 ∧ 10 ≤ s.exposure_var
            ∧ 1 ≤ gid ∧ gid ≤ s.group_total_var) := by
          rintro ⟨_, _, _, d, e⟩
          rcases hgrp with h | h <;> omega
        simp [Except.toOption, hP]
      · have hb2 : (gid < 1 || gid > s.group_total_var) = false := by
          simp only [Bool.or_eq_false_iff, decide_eq_false_iff_not]
          constructor <;> omega
        rw [if_neg (by simp [hb2])]
        have hP : 0 ≤ s.current_var ∧ s.current_var ≤ 1500 ∧ 10 ≤ s.exposure_var
            ∧ 1 ≤ gid ∧ gid ≤ s.group_total_var := by
          refine ⟨?_, ?_, ?_, ?_, ?_⟩ <;> omega
        simp [Except.toOption, V3.send_command, hc, hp, hP]

/-- Witness for C5: `gid=3, gtotal=3, ma=750, exposure=100` is accepted
and writes the program line; `gid=5, gtotal=3` is rejected and writes
nothing. -/
theorem c5_program_validation_witness :
    (V3.send_program_command "[10:00:00]"
        { V3.init with group_id_var := "3", group_total_var := 3,
                       current_var := 750, exposure_var := 100 }).toOption.map
        (fun r => r.serial_written)
      = some ["001,program,\x7b3,3,750,100\x7d\n"] ∧
    (V3.send_program_command "[10:00:00]"
        { V3.init with group_id_var := "5", group_total_var := 3,
                       current_var := 750, exposure_var := 100 }).toOption.map
        (fun r => r.serial_written)
      = some [] := by
  constructor
  · rw [c5_program_validation
      { V3.init with group_id_var := "3", group_total_var := 3,
                     current_var := 750, exposure_var := 100 }
      "[10:00:00]" 3 rfl rfl (by decide)]
    decide
  · rw [c5_program_validation
      { V3.init with group_id_var := "5", group_total_var := 3,
                     current_var := 750, exposure_var := 100 }
      "[10:00:00]" 5 rfl rfl (by decide)]
    decide

/-- C8: when not connected (flag down or no open port), `send_command`
writes nothing to the transport, appends nothing to the log, raises a
user-facing warning dialog, and — in V3 — returns `False`; no other state
changes. -/
theorem c8_send_command_requires_connection :
    (∀ (s : V1.St) (c : String), s.is_connected = false ∨ s.has_port = false →
      V1.send_command c s
        = { s with warnings := s.warnings ++ ["Not connected to device"] }) ∧
    (∀ (s : V3.St) (c ts : String), s.is_connected = false ∨ s.has_port = false →
      V3.send_command c ts s
        = (false, { s with warnings := s.warnings ++ ["Please connect to a device first"] })) := by
  constructor
  · intro s c h
    rcases h with h | h <;> simp [V1.send_command, h]
  · intro s c ts h
    rcases h with h | h <;> simp [V3.send_command, h]

/-- Witness for C8: sending `status` while disconnected changes only the
warnings list, writing and logging nothing, and V3 returns `false`. -/
theorem c8_send_command_requires_connection_witness :
    V1.send_command "status" { V1.init with is_connected := false }
      = { { V1.init with is_connected := false } with
          warnings := ["Not connected to device"] } ∧
    V3.send_command "status" "[10:00:00]" { V3.init with is_connected := false }
      = (false, { { V3.init with is_connected := false } with
          warnings := ["Please connect to a device first"] }) :=
  ⟨c8_send_command_requires_connection.1 { V1.init with is_connected := false }
      "status" (Or.inl rfl),
   c8_send_command_requires_connection.2 { V3.init with is_connected := false }
      "status" "[10:00:00]" (Or.inl rfl)⟩

/-- C9: after `update_group_id_list`, the selected group id never exceeds
the effective group total (the stored total clamped below at 1): a stored
id that fails to parse, or parses above the clamped total, is reset to
`"1"`; one that parses within it is kept; and the selectable list is
exactly `["1", …, str(clamped total)]`. -/
theorem c9_group_id_invariant (s : V3.St) :
    ((Py.toInt s.group_id_var = none →
        (V3.update_group_id_list s).group_id_var = "1") ∧
     (∀ v, Py.toInt s.group_id_var = some v →
        (V3.update_group_id_list s).group_id_var
          = (if (if s.group_total_var < 1 then 1 else s.group_total_var) < v
             then "1" else s.group_id_var)) ∧
     (∀ v, Py.toInt (V3.update_group_id_list s).group_id_var = some v →
        v ≤ (if s.group_total_var < 1 then 1 else s.group_total_var)) ∧
     (V3.update_group_id_list s).group_id_values
        = (List.range (if s.group_total_var < 1 then 1 else s.group_total_var).toNat).map
            (fun i => toString (i + 1))) := by
  have hgt1 : (1 : Int) ≤ (if s.group_total_var < 1 then 1 else s.group_total_var) := by
    split <;> omega
  refine ⟨?_, ?_, ?_, ?_⟩
  · intro hnone
    simp [V3.update_group_id_list, hnone]
  · intro v hv
    simp only [V3.update_group_id_list, hv]
    by_cases hgt : (if s.group_total_var < 1 then 1 else s.group_total_var) < v
    · rw [if_pos hgt, if_pos hgt]
    · rw [if_neg hgt, if_neg hgt]
  · intro v hv
    rcases hsome : Py.toInt s.group_id_var with _ | w
    · simp only [V3.update_group_id_list, hsome] at hv
      have h1 : Py.toInt "1" = some 1 := by decide
      rw [h1] at hv
      obtain rfl : (1 : Int) = v := by simpa using hv
      exact hgt1
    · simp only [V3.update_group_id_list, hsome] at hv
      by_cases hgt : (if s.group_total_var < 1 then 1 else s.group_total_var) < w
      · rw [if_pos hgt] at hv
        have h1 : Py.toInt "1" = some 1 := by decide
        rw [h1] at hv
        obtain rfl : (1 : Int) = v := by simpa using hv
        exact hgt1
      · rw [if_neg hgt] at hv
        rw [hsome] at hv
        obtain rfl : w = v := by simpa using hv
        exact le_of_not_lt hgt
  · rcases hsome : Py.toInt s.group_id_var with _ | w
    · simp [V3.update_group_id_list, hsome]
    · simp only [V3.update_group_id_list, hsome]
      split <;> split <;> rfl

/-- Witness for C9: group total 3 resets the out-of-range id `"5"` to
`"1"`, keeps `"2"`, resets non-numeric `"abc"`, and builds the list
`["1","2","3"]`. -/
theorem c9_group_id_invariant_witness :
    (V3.update_group_id_list
        { V3.init with group_total_var := 3, group_id_var := "5" }).group_id_var = "1" ∧
    (V3.update_group_id_list
        { V3.init with group_total_var := 3, group_id_var := "2" }).group_id_var = "2" ∧
    (V3.update_group_id_list
        { V3.init with group_total_var := 3, group_id_var := "abc" }).group_id_var = "1" ∧
    (V3.update_group_id_list
        { V3.init with group_total_var := 3, group_id_var := "5" }).group_id_values
      = ["1", "2", "3"] := by
  refine ⟨?_, ?_, ?_, ?_⟩
  · exact ((c9_group_id_invariant
      { V3.init with group_total_var := 3, group_id_var := "5" }).2.1 5
      (by decide)).trans (by decide)
  · exact ((c9_group_id_invariant
      { V3.init with group_total_var := 3, group_id_var := "2" }).2.1 2
      (by decide)).trans (by decide)
  · exact (c9_group_id_invariant
      { V3.init with group_total_var := 3, group_id_var := "abc" }).1 (by decide)
  · exact ((c9_group_id_invariant
      { V3.init with group_total_var := 3, group_id_var := "5" }).2.2.2).trans (by decide)

/-- C10: with an open connection, V1's Current Status action writes
exactly `"current\n"` to the transport and logs the outgoing line — the
bare `current` query, absent from the spec's outbound grammar. -/
theorem c10_current_status_command (s : V1.St)
    (hc : s.is_connected = true) (hp : s.has_port = true) :
    V1.get_current_status s
      = { s with serial_written := s.serial_written ++ ["current\n"],
                 log_lines := s.log_lines ++ ["→ current"] } := by
  simp [V1.get_current_status, V1.send_command, hc, hp, V1.log_message]

/-- Witness for C10: from the connected initial state, exactly
`"current\n"` is written. -/
theorem c10_current_status_command_witness :
    V1.get_current_status V1.init
      = { V1.init with serial_written := ["current\n"], log_lines := ["→ current"] } :=
  c10_current_status_command V1.init rfl rfl
